import Mathlib

/-!
Shallow embedding of the orbital trajectory computation and result-caching
pipeline of the space-traffic-analytics repository:

* `src/transformation/physics.py` — the day's time grid (`timeVector`) and the
  per-object trajectory builder (`get_position`);
* `src/visualization/main.py` — the layered snapshot cache (`load_data_smart`).

Modelling conventions:

* Wall-clock time and timestamps are integer minutes since an arbitrary UTC
  epoch.  The calendar date of an instant `t` is `t / 1440` and the UTC
  midnight of its day is `(t / 1440) * 1440`; ten python-minutes are the
  number `10`.
* A propagated coordinate sample is a `PropVal`: either a finite rational
  value or `PropVal.nonfinite`, standing for the NaN/Inf results the
  propagation library produces for decayed or otherwise failing element sets.
  Every claim about the pipeline depends only on the finite/non-finite
  distinction and on which samples are kept, never on float precision.
* `load_data_smart` mutates module globals and performs GCS and BigQuery
  I/O; it is embedded as an explicit state-transition function on a `World`
  (the in-memory globals plus the persisted store), with an `Env` recording
  the outcome of each external effect (GCS read, BigQuery query, GCS upload)
  and the current UTC date.
-/

set_option maxRecDepth 4000

namespace SpaceTraffic

/-- np.arange for naturals with positive step: the values
`start, start + step, start + 2*step, ...` strictly below `stop`. -/
def arange (start stop step : Nat) : List Nat :=
  (List.range ((stop - start + step - 1) / step)).map (fun k => start + k * step)

/-- physics.py line 14: `minutes = np.arange(0, 1440, 10)`. -/
def minutes : List Nat := arange 0 1440 10

/-- The UTC calendar date of an instant, in days since the epoch. -/
def dateOf (t : Nat) : Nat := t / 1440

/-- physics.py line 10: `midnight = now.replace(hour=0, minute=0, second=0,
microsecond=0)` — the UTC midnight of the day of instant `t`, in minutes. -/
def midnightOf (t : Nat) : Nat := dateOf t * 1440

/-- physics.py lines 8–16: `timeVector = start_time + (minutes / 1440.0)`,
the day's grid of sample instants, built from the wall clock `t` read at
module import (`now = datetime.now(timezone.utc)`).  Adding `m / 1440.0`
days to midnight is adding `m` minutes. -/
def timeVector (t : Nat) : List Nat := minutes.map (fun m => midnightOf t + m)

theorem minutes_get : ∀ i, i < 144 → minutes[i]? = some (10 * i) := by decide

theorem timeVector_get (t i : Nat) (hi : i < 144) :
    (timeVector t)[i]? = some (midnightOf t + 10 * i) := by
  unfold timeVector
  rw [List.getElem?_map, minutes_get i hi]
  rfl

theorem timeVector_length (t : Nat) : (timeVector t).length = 144 := by
  unfold timeVector
  rw [List.length_map]
  decide

/-- Claim C6 (confirmed): the time grid is an ordered sequence of exactly 144
instants, anchored at the UTC midnight of the day of the wall-clock instant at
which it is built, with 10-minute spacing, strictly increasing and equally
spaced; it depends only on the UTC calendar date, so two evaluations at any
two wall-clock instants of the same UTC day (for instance at 00:01 and at
23:59 of that day) produce the identical grid. -/
theorem timeVector_spec (t1 t2 : Nat) (hday : dateOf t1 = dateOf t2) :
    (timeVector t1).length = 144 ∧
    (timeVector t1)[0]? = some (midnightOf t1) ∧
    (∀ i, i < 144 → (timeVector t1)[i]? = some (midnightOf t1 + 10 * i)) ∧
    (∀ i j a b, i < j → j < 144 →
      (timeVector t1)[i]? = some a → (timeVector t1)[j]? = some b →
      a < b ∧ b - a = 10 * (j - i)) ∧
    timeVector t1 = timeVector t2 := by
  refine ⟨timeVector_length t1, ?_, fun i hi => timeVector_get t1 i hi, ?_, ?_⟩
  · have h0 := timeVector_get t1 0 (by omega)
    simpa using h0
  · intro i j a b hij hj ha hb
    have hi : i < 144 := lt_trans hij hj
    rw [timeVector_get t1 i hi] at ha
    rw [timeVector_get t1 j hj] at hb
    have ha' : a = midnightOf t1 + 10 * i := by injection ha.symm
    have hb' : b = midnightOf t1 + 10 * j := by injection hb.symm
    omega
  · unfold timeVector midnightOf
    rw [hday]

/-- Witness for C6: the grid built at 00:01 equals the grid built at 23:59 of
the same UTC day (both instants have date 0). -/
theorem timeVector_spec_witness :
    dateOf 1 = dateOf 1439 ∧ timeVector 1 = timeVector 1439 :=
  ⟨by decide, (timeVector_spec 1 1439 (by decide)).2.2.2.2⟩

/-- A coordinate sample produced by the propagation and geodetic-conversion
libraries at one grid instant: a finite rational number, or the NaN/Inf
result surfaced for an instant at which propagation fails. -/
inductive PropVal where
  | fin (q : ℚ)
  | nonfinite
deriving DecidableEq, Repr, Inhabited

def PropVal.isFinite : PropVal → Bool
  | .fin _ => true
  | .nonfinite => false

def PropVal.toQ : PropVal → ℚ
  | .fin q => q
  | .nonfinite => 0

/-- Python `round(float(x), 2)` (physics.py lines 37–38): round-half-even to
two decimal places for a finite value; `round(nan, 2)` is still `nan`. -/
def round2 : PropVal → PropVal
  | .fin q =>
    let c : ℚ := q * 100
    let f : ℤ := ⌊c⌋
    let r : ℚ := c - f
    let n : ℤ :=
      if r < 1/2 then f
      else if 1/2 < r then f + 1
      else if f % 2 = 0 then f else f + 1
    .fin (n / 100)
  | .nonfinite => .nonfinite

/-- `np.mean` over a vector of samples: NaN on an empty vector, non-finite
whenever any entry is non-finite, and the arithmetic mean otherwise. -/
def npMean (l : List PropVal) : PropVal :=
  if l.isEmpty then .nonfinite
  else if l.all PropVal.isFinite then .fin ((l.map PropVal.toQ).sum / l.length)
  else .nonfinite

/-- One entry of the path built by `get_position` (physics.py lines 35–39):
the grid instant (the code stores `str(t_obj.utc_datetime())`, an injective
rendering of the instant, modelled by the instant itself) and the rounded
latitude and longitude. -/
structure GeoPoint where
  timestamp : Nat
  lat : PropVal
  lon : PropVal
deriving DecidableEq, Repr

/-- physics.py line 34: `for t_obj, lat, lon in zip(timeVector, lats, lons)`
— Python `zip` truncates to the shortest input and every triple is appended
to the path unconditionally. -/
def buildPath : List Nat → List PropVal → List PropVal → List GeoPoint
  | t :: ts, la :: las, lo :: los =>
    ⟨t, round2 la, round2 lo⟩ :: buildPath ts las los
  | _, _, _ => []

/-- physics.py lines 18–41, `get_position`: the per-instant propagation and
geodetic-conversion outputs (`lats`, `lons`, `alts`, one sample per instant of
the grid) are turned into the full path together with `np.mean(alts)`.  The
external numeric libraries are the source of the sample lists; the function
body itself is the loop of line 34 and the pair of line 41. -/
def get_position (grid : List Nat) (lats lons alts : List PropVal) :
    List GeoPoint × PropVal :=
  (buildPath grid lats lons, npMean alts)

/-- The mean the spec prescribes: the arithmetic mean over the successful
(finite) samples only, the dropped ones excluded. -/
def meanOverSuccessful (alts : List PropVal) : PropVal :=
  npMean (alts.filter PropVal.isFinite)

theorem buildPath_length (grid : List Nat) (lats lons : List PropVal)
    (h1 : lats.length = grid.length) (h2 : lons.length = grid.length) :
    (buildPath grid lats lons).length = grid.length := by
  induction grid generalizing lats lons with
  | nil =>
    cases lats <;> cases lons <;> simp [buildPath]
  | cons t ts ih =>
    cases lats with
    | nil => simp at h1
    | cons la las =>
      cases lons with
      | nil => simp at h2
      | cons lo los =>
        simp only [buildPath, List.length_cons] at h1 h2 ⊢
        rw [ih las los (by omega) (by omega)]

theorem buildPath_get (grid : List Nat) (lats lons : List PropVal)
    (h1 : lats.length = grid.length) (h2 : lons.length = grid.length) :
    ∀ i, i < grid.length →
      ∃ t la lo, grid[i]? = some t ∧ lats[i]? = some la ∧ lons[i]? = some lo ∧
        (buildPath grid lats lons)[i]? = some ⟨t, round2 la, round2 lo⟩ := by
  induction grid generalizing lats lons with
  | nil => intro i hi; simp at hi
  | cons t ts ih =>
    cases lats with
    | nil => simp at h1
    | cons la las =>
      cases lons with
      | nil => simp at h2
      | cons lo los =>
        intro i hi
        cases i with
        | zero => exact ⟨t, la, lo, by simp, by simp, by simp, by simp [buildPath]⟩
        | succ j =>
          simp only [List.length_cons] at h1 h2 hi
          obtain ⟨t', la', lo', hg, hla, hlo, hp⟩ :=
            ih las los (by omega) (by omega) j (by omega)
          refine ⟨t', la', lo', ?_, ?_, ?_, ?_⟩
          · simpa using hg
          · simpa using hla
          · simpa using hlo
          · simpa [buildPath] using hp

/-- An altitude vector with one failed (non-finite) sample among 144. -/
def altsOneBad : List PropVal :=
  PropVal.nonfinite :: List.replicate 143 (PropVal.fin 1)

/-- Claim C3 counterexample: with one non-finite altitude sample among the
144, `get_position` returns `np.mean` over the full grid — the non-finite
sample included, so the mean is non-finite — whereas the mean over the
successful samples only is `1`.  The mean is not taken over the successful
samples only, as the claim states. -/
theorem get_position_mean_cex :
    (get_position (timeVector 0) (List.replicate 144 (PropVal.fin 0))
        (List.replicate 144 (PropVal.fin 0)) altsOneBad).2 = PropVal.nonfinite ∧
    meanOverSuccessful altsOneBad = PropVal.fin 1 ∧
    (get_position (timeVector 0) (List.replicate 144 (PropVal.fin 0))
        (List.replicate 144 (PropVal.fin 0)) altsOneBad).2 ≠
      meanOverSuccessful altsOneBad := by
  have hnf : (get_position (timeVector 0) (List.replicate 144 (PropVal.fin 0))
      (List.replicate 144 (PropVal.fin 0)) altsOneBad).2 = PropVal.nonfinite := by
    decide
  have hfil : altsOneBad.filter PropVal.isFinite =
      List.replicate 143 (PropVal.fin 1) := by
    simp [altsOneBad, PropVal.isFinite]
  have hsucc : meanOverSuccessful altsOneBad = PropVal.fin 1 := by
    have he : (List.replicate 143 (PropVal.fin 1)).isEmpty = false := by simp
    have ha : (List.replicate 143 (PropVal.fin 1)).all PropVal.isFinite = true := by
      simp [PropVal.isFinite]
    have hval : (((List.replicate 143 (PropVal.fin 1)).map PropVal.toQ).sum /
        ((List.replicate 143 (PropVal.fin 1)).length : ℚ)) = 1 := by
      rw [List.map_replicate, List.sum_replicate, List.length_replicate]
      norm_num [PropVal.toQ]
    rw [meanOverSuccessful, hfil, npMean, he, ha]
    simp only [Bool.false_eq_true, if_false, if_true]
    rw [hval]
  refine ⟨hnf, hsucc, ?_⟩
  rw [hnf, hsucc]
  decide

/-- Claim C3 (corrected, amended): no sample is ever dropped, so the
returned Trajectory always contains one point per grid instant, and
`meanAltitudeKm` is `np.mean` over the full grid.  When every sample is
finite this coincides with the arithmetic mean of the elevations of exactly
the points present (and with the mean over the successful samples); a
non-finite sample is included in the mean — making it non-finite — rather
than being excluded. -/
theorem get_position_mean_spec (grid : List Nat) (lats lons alts : List PropVal)
    (h1 : lats.length = grid.length) (h2 : lons.length = grid.length)
    (h3 : alts.length = grid.length)
    (hfin : alts.all PropVal.isFinite = true) (hne : grid ≠ []) :
    (get_position grid lats lons alts).1.length = grid.length ∧
    (get_position grid lats lons alts).2 =
      PropVal.fin ((alts.map PropVal.toQ).sum / alts.length) ∧
    (get_position grid lats lons alts).2 = meanOverSuccessful alts := by
  have hlen : (get_position grid lats lons alts).1.length = grid.length :=
    buildPath_length grid lats lons h1 h2
  have hALne : alts ≠ [] := by
    intro h
    apply hne
    rw [h] at h3
    exact List.length_eq_zero.mp h3.symm
  have hempty : alts.isEmpty = false := by
    cases alts with
    | nil => exact absurd rfl hALne
    | cons a l => rfl
  have hmean : (get_position grid lats lons alts).2 =
      PropVal.fin ((alts.map PropVal.toQ).sum / alts.length) := by
    simp only [get_position, npMean, hempty, hfin]
    rfl
  refine ⟨hlen, hmean, ?_⟩
  have hfilter : alts.filter PropVal.isFinite = alts :=
    List.filter_eq_self.mpr (List.all_eq_true.mp hfin)
  rw [hmean, meanOverSuccessful, hfilter, npMean, hempty, hfin]
  rfl

/-- Witness for the amended C3: a concrete all-finite run, in which the mean
equals the mean over the successful samples. -/
theorem get_position_mean_spec_witness :
    (get_position [0, 10] [PropVal.fin 0, PropVal.fin 0]
        [PropVal.fin 0, PropVal.fin 0] [PropVal.fin 2, PropVal.fin 4]).2 =
      meanOverSuccessful [PropVal.fin 2, PropVal.fin 4] :=
  (get_position_mean_spec [0, 10] [PropVal.fin 0, PropVal.fin 0]
    [PropVal.fin 0, PropVal.fin 0] [PropVal.fin 2, PropVal.fin 4]
    (by decide) (by decide) (by decide) (by decide) (by decide)).2.2

/-- Claim C4 counterexample: a sample whose propagation yields a non-finite
latitude is not omitted from the Trajectory — the path keeps its full length
and the non-finite point is stored at its grid position. -/
theorem get_position_nondrop_cex :
    ((get_position [0, 10, 20] [PropVal.fin 1, PropVal.nonfinite, PropVal.fin 2]
        [PropVal.fin 3, PropVal.fin 4, PropVal.fin 5]
        [PropVal.fin 1, PropVal.nonfinite, PropVal.fin 1]).1).length = 3 ∧
    ((get_position [0, 10, 20] [PropVal.fin 1, PropVal.nonfinite, PropVal.fin 2]
        [PropVal.fin 3, PropVal.fin 4, PropVal.fin 5]
        [PropVal.fin 1, PropVal.nonfinite, PropVal.fin 1]).1)[1]? =
      some ⟨10, PropVal.nonfinite, round2 (PropVal.fin 4)⟩ := by
  refine ⟨by decide, by rfl⟩

/-- Claim C4 (corrected, amended): no sample is ever omitted.  For every
grid instant — including those at which propagation failed and the sample is
non-finite — the Trajectory stores a point at the instant's grid position
holding the (rounded) sample values as-is; non-finite samples are stored,
never dropped and never null-filled. -/
theorem get_position_keeps_all (grid : List Nat) (lats lons alts : List PropVal)
    (h1 : lats.length = grid.length) (h2 : lons.length = grid.length) :
    (get_position grid lats lons alts).1.length = grid.length ∧
    ∀ i, i < grid.length →
      ∃ t la lo, grid[i]? = some t ∧ lats[i]? = some la ∧ lons[i]? = some lo ∧
        (get_position grid lats lons alts).1[i]? = some ⟨t, round2 la, round2 lo⟩ :=
  ⟨buildPath_length grid lats lons h1 h2, buildPath_get grid lats lons h1 h2⟩

/-- Witness for the amended C4: a run with a non-finite sample at index 0
still stores a point for every instant. -/
theorem get_position_keeps_all_witness :
    (get_position [0, 10] [PropVal.nonfinite, PropVal.fin 1]
        [PropVal.fin 2, PropVal.fin 3] [PropVal.fin 0, PropVal.fin 0]).1.length = 2 :=
  (get_position_keeps_all [0, 10] [PropVal.nonfinite, PropVal.fin 1]
    [PropVal.fin 2, PropVal.fin 3] [PropVal.fin 0, PropVal.fin 0]
    (by decide) (by decide)).1

/-- A full day of failed samples: every propagation output non-finite. -/
def allBad : List PropVal := List.replicate 144 PropVal.nonfinite

/-- Claim C5 counterexample: for an object for which zero samples succeed
(every propagation output over the 144-instant grid is non-finite),
`get_position` does not signal any failure and the object is not excluded:
it returns a normal full-length 144-point trajectory (of non-finite points)
with a non-finite mean altitude. -/
theorem get_position_zero_success_cex :
    ((get_position (timeVector 0) allBad allBad allBad).1).length = 144 ∧
    (get_position (timeVector 0) allBad allBad allBad).2 = PropVal.nonfinite := by
  refine ⟨by decide, by decide⟩

/-- Claim C5 (corrected, amended): trajectory building never signals
`ObjectUnavailable` — `get_position` is a total function with no failure
channel.  Even when zero samples succeed (every altitude sample non-finite),
it returns a trajectory with one point per grid instant and a non-finite
mean altitude; exclusion of such objects does not happen at this boundary. -/
theorem get_position_total_on_failure (grid : List Nat) (lats lons alts : List PropVal)
    (h1 : lats.length = grid.length) (h2 : lons.length = grid.length)
    (h3 : alts.length = grid.length)
    (hbad : alts.all (fun a => !a.isFinite) = true) (hne : grid ≠ []) :
    (get_position grid lats lons alts).1.length = grid.length ∧
    (get_position grid lats lons alts).2 = PropVal.nonfinite := by
  refine ⟨buildPath_length grid lats lons h1 h2, ?_⟩
  cases alts with
  | nil =>
    exfalso
    apply hne
    exact List.length_eq_zero.mp h3.symm
  | cons a l =>
    have ha : a.isFinite = false := by
      have := List.all_eq_true.mp hbad a (by simp)
      simpa using this
    simp only [get_position, npMean, List.isEmpty_cons, List.all_cons, ha,
      Bool.false_and, Bool.ite_eq_true_distrib]
    rfl

/-- Witness for the amended C5: a concrete all-failed run returns a
full-length trajectory and a non-finite mean. -/
theorem get_position_total_on_failure_witness :
    (get_position [0, 10] [PropVal.nonfinite, PropVal.nonfinite]
        [PropVal.nonfinite, PropVal.nonfinite]
        [PropVal.nonfinite, PropVal.nonfinite]).2 = PropVal.nonfinite :=
  (get_position_total_on_failure [0, 10] [PropVal.nonfinite, PropVal.nonfinite]
    [PropVal.nonfinite, PropVal.nonfinite] [PropVal.nonfinite, PropVal.nonfinite]
    (by decide) (by decide) (by decide) (by decide) (by decide)).2

theorem buildPath_timestamp_mem (grid : List Nat) (lats lons : List PropVal) :
    ∀ p ∈ buildPath grid lats lons, p.timestamp ∈ grid := by
  induction grid generalizing lats lons with
  | nil => intro p hp; cases lats <;> cases lons <;> simp [buildPath] at hp
  | cons t ts ih =>
    intro p hp
    cases lats with
    | nil => simp [buildPath] at hp
    | cons la las =>
      cases lons with
      | nil => simp [buildPath] at hp
      | cons lo los =>
        simp only [buildPath, List.mem_cons] at hp
        cases hp with
        | inl h => rw [h]; exact List.mem_cons_self _ _
        | inr h => exact List.mem_cons_of_mem _ (ih las los p h)

/-- Claim C8 (confirmed): the Trajectory is aligned with the time grid by
position: its length is at most the grid length (here it is in fact equal),
the point at index `i` carries timestamp `TimeGrid[i]`, and every contained
timestamp is a member of the time grid (order is inherited from the
positional correspondence), so position-at-time-index lookup needs no
timestamp comparison. -/
theorem get_position_grid_aligned (t : Nat) (lats lons alts : List PropVal)
    (h1 : lats.length = 144) (h2 : lons.length = 144) :
    (get_position (timeVector t) lats lons alts).1.length ≤ (timeVector t).length ∧
    (∀ i, i < (get_position (timeVector t) lats lons alts).1.length →
      ((get_position (timeVector t) lats lons alts).1[i]?).map GeoPoint.timestamp =
        (timeVector t)[i]?) ∧
    (∀ p, p ∈ (get_position (timeVector t) lats lons alts).1 →
      p.timestamp ∈ timeVector t) := by
  have hg : (timeVector t).length = 144 := timeVector_length t
  have h1' : lats.length = (timeVector t).length := by omega
  have h2' : lons.length = (timeVector t).length := by omega
  have hlen : (get_position (timeVector t) lats lons alts).1.length =
      (timeVector t).length := buildPath_length _ _ _ h1' h2'
  refine ⟨le_of_eq hlen, ?_, ?_⟩
  · intro i hi
    rw [hlen] at hi
    obtain ⟨t', la, lo, hgrid, _, _, hpath⟩ :=
      buildPath_get (timeVector t) lats lons h1' h2' i hi
    show ((buildPath (timeVector t) lats lons)[i]?).map GeoPoint.timestamp =
      (timeVector t)[i]?
    rw [hpath, hgrid]
    rfl
  · intro p hp
    exact buildPath_timestamp_mem (timeVector t) lats lons p hp

/-- Witness for C8: a concrete run over the full grid, whose point at index
0 carries timestamp `TimeGrid[0]`. -/
theorem get_position_grid_aligned_witness :
    ((get_position (timeVector 0) (List.replicate 144 (PropVal.fin 0))
        (List.replicate 144 (PropVal.fin 0)) (List.replicate 144 (PropVal.fin 0))).1[0]?).map
      GeoPoint.timestamp = (timeVector 0)[0]? :=
  (get_position_grid_aligned 0 (List.replicate 144 (PropVal.fin 0))
    (List.replicate 144 (PropVal.fin 0)) (List.replicate 144 (PropVal.fin 0))
    (by decide) (by decide)).2.1 0 (by decide)

/-- The data bundle `load_data_smart` keeps in the globals, pickles to GCS
and reloads (`{'main': df_main, 'kpi': df_kpi, 'timestamps': timestamps}`):
`tsFirstDate` is the UTC date of `timestamps[0]` when the timestamps list is
nonempty (`none` models an empty list), and `content` abstracts the
dataframe contents. -/
structure Snapshot where
  tsFirstDate : Option Nat
  content : Nat
deriving DecidableEq, Repr

/-- main.py line 53: `len(cached_ts) > 0 and cached_ts[0].date() == today_utc`. -/
def Snapshot.isFresh (s : Snapshot) (today : Nat) : Bool :=
  match s.tsFirstDate with
  | some d => d == today
  | none => false

/-- The mutable state `load_data_smart` touches: `ram` is the module globals
(`df_main` et al., `none` when not yet loaded) and `store` the GCS blob
(`none` when `blob.exists()` is false). -/
structure World where
  ram : Option Snapshot
  store : Option Snapshot
deriving DecidableEq, Repr

/-- The outcomes of one call's external effects: the current UTC date
(`datetime.now(timezone.utc).date()`, main.py line 39), whether the GCS
download and unpickling succeed, the result of the BigQuery queries and
parsing (`none` when any of them raises), and whether the GCS upload
succeeds. -/
structure Env where
  today : Nat
  readOk : Bool
  bq : Option Snapshot
  uploadOk : Bool
deriving DecidableEq, Repr

/-- The result of one `load_data_smart` call: `world = none` models
`sys.exit(1)` (main.py line 101); `recomputed` records whether the
BigQuery recomputation path ran; `wrote` whether the GCS upload
completed. -/
structure Outcome where
  world : Option World
  recomputed : Bool
  wrote : Bool
deriving DecidableEq, Repr

/-- The snapshot a successful call leaves in RAM for serving. -/
def Outcome.served (o : Outcome) : Option Snapshot := o.world.bind World.ram

/-- main.py lines 32–101, `load_data_smart`, as a state-transition function.
Line 35: a non-None `df_main` returns immediately, with no further checks.
Lines 45–64: when the blob exists, a successfully downloaded snapshot is
loaded into the globals only if its timestamps are nonempty and dated
today; a stale blob or a read error falls through to the BigQuery path.
Lines 66–101: the BigQuery path loads fresh data into the globals and
uploads it to GCS; any exception raised in that block — by the queries, the
parsing, or the upload — reaches the `except` handler, which calls
`sys.exit(1)`. -/
def load_data_smart (env : Env) (w : World) : Outcome :=
  match w.ram with
  | some _ => ⟨some w, false, false⟩
  | none =>
    let gcsHit : Option Snapshot :=
      match w.store with
      | none => none
      | some s => if env.readOk && s.isFresh env.today then some s else none
    match gcsHit with
    | some s => ⟨some ⟨some s, w.store⟩, false, false⟩
    | none =>
      match env.bq with
      | none => ⟨none, true, false⟩
      | some s =>
        if env.uploadOk then ⟨some ⟨some s, some s⟩, true, true⟩
        else ⟨none, true, false⟩

theorem Snapshot.isFresh_date {s : Snapshot} {today : Nat}
    (h : s.isFresh today = true) : s.tsFirstDate = some today := by
  obtain ⟨t, c⟩ := s
  cases t with
  | none => simp [Snapshot.isFresh] at h
  | some d =>
    simp only [Snapshot.isFresh, beq_iff_eq] at h
    rw [h]

/-- Claim C1 counterexample: with the in-memory entry dated yesterday
(day 0) and today = day 1, the call serves the stale entry unchanged —
no recomputation is triggered (even though both a fresh persisted snapshot
and a successful recomputation were available) and the served snapshot is
not dated today. -/
theorem load_data_smart_stale_ram_cex :
    (load_data_smart ⟨1, true, some ⟨some 1, 9⟩, true⟩
        ⟨some ⟨some 0, 7⟩, some ⟨some 1, 8⟩⟩).recomputed = false ∧
    (load_data_smart ⟨1, true, some ⟨some 1, 9⟩, true⟩
        ⟨some ⟨some 0, 7⟩, some ⟨some 1, 8⟩⟩).served = some ⟨some 0, 7⟩ ∧
    Snapshot.isFresh ⟨some 0, 7⟩ 1 = false := by
  decide

/-- Claim C1 (corrected, amended): only the persisted-store path is
validated for freshness.  A call that serves from RAM returns the in-memory
entry unchanged without any date check — a stale in-memory entry does not
trigger recomputation — while a snapshot served from the persisted store is
guaranteed to carry first-timestamp date equal to today, and the
recomputation path serves whatever the warehouse returned, without date
validation. -/
theorem load_data_smart_freshness (env : Env) (w : World) :
    (∀ s, w.ram = some s →
      load_data_smart env w = ⟨some w, false, false⟩) ∧
    (∀ s, w.ram = none → w.store = some s → env.readOk = true →
      s.isFresh env.today = true →
      load_data_smart env w = ⟨some ⟨some s, w.store⟩, false, false⟩ ∧
        s.tsFirstDate = some env.today) ∧
    (∀ s, w.ram = none → w.store = none → env.bq = some s →
      env.uploadOk = true →
      load_data_smart env w = ⟨some ⟨some s, some s⟩, true, true⟩) := by
  obtain ⟨ram, store⟩ := w
  refine ⟨?_, ?_, ?_⟩
  · rintro s rfl
    rfl
  · rintro s rfl rfl hrd hfr
    refine ⟨?_, Snapshot.isFresh_date hfr⟩
    simp [load_data_smart, hrd, hfr]
  · rintro s rfl rfl hbq hup
    simp [load_data_smart, hbq, hup]

/-- Witness for the amended C1: a concrete RAM hit is served unchanged with
no recomputation, and a concrete fresh persisted snapshot is served with
date equal to today. -/
theorem load_data_smart_freshness_witness :
    load_data_smart ⟨1, true, none, true⟩ ⟨some ⟨some 0, 7⟩, none⟩ =
      ⟨some ⟨some ⟨some 0, 7⟩, none⟩, false, false⟩ ∧
    Snapshot.tsFirstDate ⟨some 2, 4⟩ = some 2 :=
  ⟨(load_data_smart_freshness ⟨1, true, none, true⟩
      ⟨some ⟨some 0, 7⟩, none⟩).1 ⟨some 0, 7⟩ rfl,
   ((load_data_smart_freshness ⟨2, true, none, true⟩
      ⟨none, some ⟨some 2, 4⟩⟩).2.1 ⟨some 2, 4⟩ rfl rfl rfl (by decide)).2⟩

/-- Claim C2 counterexample: with empty RAM, no persisted snapshot, a
successful recomputation and a failing GCS upload, the call aborts the
process (`sys.exit(1)`) even though the recomputation had already produced
a valid in-memory result: a persisted-write failure is fatal to the
request. -/
theorem load_data_smart_write_failure_cex :
    (load_data_smart ⟨1, true, some ⟨some 1, 5⟩, false⟩ ⟨none, none⟩).world =
      none ∧
    (load_data_smart ⟨1, true, some ⟨some 1, 5⟩, false⟩
        ⟨none, none⟩).recomputed = true := by
  decide

/-- Claim C2 (corrected, amended): a persisted-snapshot read failure is
non-fatal — the call degrades to recomputation — but the request then
succeeds only when both the recomputation and the subsequent persisted
write succeed: a persisted-write failure aborts the request (process exit)
even though the recomputation had already produced a valid in-memory
result. -/
theorem load_data_smart_persistence (env : Env) (w : World) (s : Snapshot)
    (hram : w.ram = none) (hread : env.readOk = false)
    (hbq : env.bq = some s) :
    (load_data_smart env w).recomputed = true ∧
    (env.uploadOk = true →
      load_data_smart env w = ⟨some ⟨some s, some s⟩, true, true⟩) ∧
    (env.uploadOk = false → (load_data_smart env w).world = none) := by
  obtain ⟨ram, store⟩ := w
  subst hram
  cases store with
  | none =>
    cases hup : env.uploadOk <;>
      simp [load_data_smart, hbq, hup]
  | some s0 =>
    cases hup : env.uploadOk <;>
      simp [load_data_smart, hread, hbq, hup]

/-- Witness for the amended C2: a concrete read failure (the blob exists
but cannot be unpickled) degrades to recomputation and the request
succeeds, serving the recomputed snapshot. -/
theorem load_data_smart_persistence_witness :
    load_data_smart ⟨2, false, some ⟨some 2, 5⟩, true⟩
        ⟨none, some ⟨some 2, 4⟩⟩ =
      ⟨some ⟨some ⟨some 2, 5⟩, some ⟨some 2, 5⟩⟩, true, true⟩ :=
  (load_data_smart_persistence ⟨2, false, some ⟨some 2, 5⟩, true⟩
    ⟨none, some ⟨some 2, 4⟩⟩ ⟨some 2, 5⟩ rfl rfl rfl).2.1 rfl

theorem load_data_smart_ram_set (env : Env) (w w' : World) (r wr : Bool)
    (h : load_data_smart env w = ⟨some w', r, wr⟩) : ∃ s, w'.ram = some s := by
  obtain ⟨ram, store⟩ := w
  cases ram with
  | some s =>
    refine ⟨s, ?_⟩
    have h1 : some (⟨some s, store⟩ : World) = some w' := congrArg Outcome.world h
    injection h1 with h1
    rw [← h1]
  | none =>
    cases store with
    | none =>
      cases hbq : env.bq with
      | none => simp [load_data_smart, hbq] at h
      | some s =>
        cases hup : env.uploadOk with
        | false => simp [load_data_smart, hbq, hup] at h
        | true =>
          refine ⟨s, ?_⟩
          simp only [load_data_smart, hbq, hup] at h
          have h1 : some (⟨some s, some s⟩ : World) = some w' :=
            congrArg Outcome.world h
          injection h1 with h1
          rw [← h1]
    | some s0 =>
      cases hc : env.readOk && s0.isFresh env.today with
      | true =>
        refine ⟨s0, ?_⟩
        simp only [load_data_smart, hc] at h
        have h1 : some (⟨some s0, some s0⟩ : World) = some w' :=
          congrArg Outcome.world h
        injection h1 with h1
        rw [← h1]
      | false =>
        cases hbq : env.bq with
        | none => simp [load_data_smart, hc, hbq] at h
        | some s =>
          cases hup : env.uploadOk with
          | false => simp [load_data_smart, hc, hbq, hup] at h
          | true =>
            refine ⟨s, ?_⟩
            simp only [load_data_smart, hc, hbq, hup] at h
            have h1 : some (⟨some s, some s⟩ : World) = some w' :=
              congrArg Outcome.world h
            injection h1 with h1
            rw [← h1]

/-- Claim C7 (confirmed): `load_data_smart` is idempotent within a UTC day
(indeed unconditionally, per process): if a first call returns successfully,
leaving world `w1`, a second call on `w1` under the same current date (no
invalidation primitive exists to intervene) serves exactly the same
in-memory snapshot as the first call, changes nothing, and performs neither
recomputation nor write — the recomputation sweep runs at most once across
the pair of calls. -/
theorem load_data_smart_idempotent (env env' : Env) (w w1 : World)
    (r wr : Bool) (hday : env.today = env'.today)
    (h : load_data_smart env w = ⟨some w1, r, wr⟩) :
    ∃ s, w1.ram = some s ∧
      (load_data_smart env w).served = some s ∧
      load_data_smart env' w1 = ⟨some w1, false, false⟩ ∧
      (load_data_smart env' w1).served = some s := by
  obtain ⟨s, hs⟩ := load_data_smart_ram_set env w w1 r wr h
  have hsecond : load_data_smart env' w1 = ⟨some w1, false, false⟩ := by
    obtain ⟨ram1, store1⟩ := w1
    simp only at hs
    rw [hs]
    rfl
  refine ⟨s, hs, ?_, hsecond, ?_⟩
  · rw [h]
    simp [Outcome.served, hs]
  · rw [hsecond]
    simp [Outcome.served, hs]

/-- Witness for C7: a concrete first call recomputes and serves a snapshot;
the second call within the same day serves the identical snapshot with no
recomputation. -/
theorem load_data_smart_idempotent_witness :
    load_data_smart ⟨1, false, none, false⟩
        ⟨some ⟨some 1, 5⟩, some ⟨some 1, 5⟩⟩ =
      ⟨some ⟨some ⟨some 1, 5⟩, some ⟨some 1, 5⟩⟩, false, false⟩ := by
  obtain ⟨s, hs, h1, h2, h3⟩ :=
    load_data_smart_idempotent ⟨1, true, some ⟨some 1, 5⟩, true⟩
      ⟨1, false, none, false⟩ ⟨none, none⟩
      ⟨some ⟨some 1, 5⟩, some ⟨some 1, 5⟩⟩ true true rfl (by decide)
  exact h2

/-- Claim C10 (confirmed): `load_data_smart` writes to the persisted store
only on the recomputation path — a call that serves from the in-memory
entry or from a validated persisted snapshot performs no upload and leaves
the stored snapshot unchanged; conversely, a completed write implies the
recomputation path ran. -/
theorem load_data_smart_frame (env : Env) (w : World) :
    ((load_data_smart env w).recomputed = false →
      (load_data_smart env w).wrote = false ∧
      ∀ w', (load_data_smart env w).world = some w' → w'.store = w.store) ∧
    ((load_data_smart env w).wrote = true →
      (load_data_smart env w).recomputed = true) := by
  obtain ⟨ram, store⟩ := w
  cases ram with
  | some s =>
    refine ⟨fun _ => ⟨rfl, ?_⟩, fun h => absurd h Bool.false_ne_true⟩
    intro w' hw
    have h1 : some (⟨some s, store⟩ : World) = some w' := hw
    injection h1 with h1
    rw [← h1]
  | none =>
    cases store with
    | none =>
      cases hbq : env.bq with
      | none => simp [load_data_smart, hbq]
      | some s =>
        cases hup : env.uploadOk <;> simp [load_data_smart, hbq, hup]
    | some s0 =>
      cases hc : env.readOk && s0.isFresh env.today with
      | true =>
        refine ⟨fun _ => ⟨?_, ?_⟩, fun h => ?_⟩
        · simp [load_data_smart, hc]
        · intro w' hw
          simp only [load_data_smart, hc] at hw
          have h1 : some (⟨some s0, some s0⟩ : World) = some w' := hw
          injection h1 with h1
          rw [← h1]
        · simp [load_data_smart, hc] at h
      | false =>
        cases hbq : env.bq with
        | none => simp [load_data_smart, hc, hbq]
        | some s =>
          cases hup : env.uploadOk <;> simp [load_data_smart, hc, hbq, hup]

/-- Witness for C10: a concrete RAM-served call performs no write, and a
concrete fresh-persisted-snapshot-served call leaves the store unchanged. -/
theorem load_data_smart_frame_witness :
    (load_data_smart ⟨3, true, some ⟨some 3, 8⟩, true⟩
        ⟨some ⟨some 3, 2⟩, some ⟨some 9, 9⟩⟩).wrote = false :=
  ((load_data_smart_frame ⟨3, true, some ⟨some 3, 8⟩, true⟩
    ⟨some ⟨some 3, 2⟩, some ⟨some 9, 9⟩⟩).1 (by decide)).1

end SpaceTraffic
